import Mathlib

/-!
Shallow embedding of `pkg/neobench/output.go`: the `Result` aggregation
model (`Result.Add`, the derived totals, failure groups) and the output
renderers (`InteractiveOutput`, `CsvOutput`, `CombinedOutput`,
`InitOutput`).

Modelling conventions: Go maps become association lists with the map's
lookup/first-match-update semantics; Go `float64` becomes `ℚ`;
`int64` becomes `ℤ`; output streams become lists of structured lines
(a `%.3f`-formatted number is carried as its rational value); the
third-party hdrhistogram is modelled from the spec as a black box over
the multiset of recorded integer samples.
-/

/-- Modelled from the spec: the hdrhistogram latency histogram is external
to the repository; the spec calls it a "black-box capability recording a
distribution of integer latency samples with quantile/mean/stddev/min/max/
count queries; merge combines samples losslessly". We model it as the
multiset of recorded samples. -/
structure Histogram where
  samples : Multiset ℤ
deriving DecidableEq

def Histogram.TotalCount (h : Histogram) : ℤ := h.samples.card

def Histogram.Merge (h w : Histogram) : Histogram := ⟨h.samples + w.samples⟩

/-- `Export` yields a value snapshot of the histogram (Go `hdrhistogram.Export`). -/
def Histogram.Export (h : Histogram) : Multiset ℤ := h.samples

/-- `Import` builds a fresh histogram from a snapshot (Go `hdrhistogram.Import`);
`Histogram.Import (Histogram.Export h)` is the deep copy taken by `Result.Add`. -/
def Histogram.Import (s : Multiset ℤ) : Histogram := ⟨s⟩

def Histogram.Min (h : Histogram) : ℤ := (h.samples.sort (· ≤ ·)).headD 0

def Histogram.Max (h : Histogram) : ℤ := (h.samples.sort (· ≤ ·)).getLastD 0

def Histogram.Mean (h : Histogram) : ℚ :=
  if h.samples.card = 0 then 0
  else (h.samples.map (fun v => (v : ℚ))).sum / h.samples.card

/-- Modelled from the spec: black-box standard-deviation query (population
standard deviation of the recorded samples, with the square root taken in
`ℚ`; every claim uses this query symbolically). -/
def Histogram.StdDev (h : Histogram) : ℚ :=
  if h.samples.card = 0 then 0
  else Rat.sqrt ((h.samples.map (fun v => ((v : ℚ) - h.Mean) ^ 2)).sum / h.samples.card)

/-- Modelled from the spec: black-box quantile query — the sample at rank
`round(q/100 · count)` of the sorted recorded samples. -/
def Histogram.ValueAtQuantile (h : Histogram) (q : ℚ) : ℤ :=
  let l := h.samples.sort (· ≤ ·)
  let k := (⌊q * h.samples.card / 100 + 1 / 2⌋).toNat
  l.getD (k - 1) 0

structure ProgressReport where
  Section : String
  Step : String
  Completeness : ℚ
deriving DecidableEq

/-- Modelled from the spec: `FailureGroup` (defined outside this file in the
repository) is "{Count, FirstFailure}: one error class"; `Result.Add` reads
exactly these two fields. `FirstFailure` (a Go error) is carried as its
message string. -/
structure FailureGroup where
  Count : ℤ
  FirstFailure : String
deriving DecidableEq

structure ScriptResult where
  ScriptName : String
  Rate : ℚ
  Failed : ℤ
  Succeeded : ℤ
  Latencies : Histogram
deriving DecidableEq

structure Result where
  DatabaseName : String
  Scenario : String
  FailedByErrorGroup : List (String × FailureGroup)
  Scripts : List ScriptResult
deriving DecidableEq

def NewResult (databaseName scenario : String) : Result :=
  { DatabaseName := databaseName, Scenario := scenario
    FailedByErrorGroup := [], Scripts := [] }

/-- Modelled from the spec: `WorkerResult` (defined outside this file in the
repository) has the "same shape as Result but scoped to one worker's
contribution window"; `Result.Add` reads exactly these two fields. -/
structure WorkerResult where
  Scripts : List ScriptResult
  FailedByErrorGroup : List (String × FailureGroup)
deriving DecidableEq

def Result.TotalSucceeded (r : Result) : ℤ := (r.Scripts.map (·.Succeeded)).sum

def Result.TotalFailed (r : Result) : ℤ := (r.Scripts.map (·.Failed)).sum

def Result.TotalRate (r : Result) : ℚ := (r.Scripts.map (·.Rate)).sum

/-- Lookup in the `Scripts` map (`r.Scripts[name]` in Go). -/
def lookupScript : List ScriptResult → String → Option ScriptResult
  | [], _ => none
  | s :: rest, name => if s.ScriptName = name then some s else lookupScript rest name

/-- The entry `Result.Add` inserts for a script name not yet present:
the contribution's counters plus a deep copy of its histogram. -/
def importedScript (ws : ScriptResult) : ScriptResult :=
  { ScriptName := ws.ScriptName, Rate := ws.Rate, Failed := ws.Failed
    Succeeded := ws.Succeeded
    Latencies := Histogram.Import (Histogram.Export ws.Latencies) }

/-- The in-place update `Result.Add` performs on an existing entry:
counters added numerically, histograms merged. -/
def combineScript (s ws : ScriptResult) : ScriptResult :=
  { ScriptName := s.ScriptName, Rate := s.Rate + ws.Rate
    Failed := s.Failed + ws.Failed, Succeeded := s.Succeeded + ws.Succeeded
    Latencies := s.Latencies.Merge ws.Latencies }

/-- One iteration of the per-script loop of `Result.Add`, on the `Scripts`
map (map semantics: update the unique existing key, else insert). -/
def addScript : List ScriptResult → ScriptResult → List ScriptResult
  | [], ws => [importedScript ws]
  | s :: rest, ws =>
    if s.ScriptName = ws.ScriptName then combineScript s ws :: rest
    else s :: addScript rest ws

/-- Lookup in the `FailedByErrorGroup` map. -/
def lookupGroup : List (String × FailureGroup) → String → Option FailureGroup
  | [], _ => none
  | (n, eg) :: rest, name => if n = name then some eg else lookupGroup rest name

/-- One iteration of the failure-group loop of `Result.Add`: sum `Count`
and keep the existing `FirstFailure`, else insert as given. -/
def addGroup : List (String × FailureGroup) → String × FailureGroup →
    List (String × FailureGroup)
  | [], e => [e]
  | (n, eg) :: rest, (name, g) =>
    if n = name then
      (n, { Count := eg.Count + g.Count, FirstFailure := eg.FirstFailure }) :: rest
    else (n, eg) :: addGroup rest (name, g)

/-- `Result.Add` from `output.go`: fold the contribution's script entries and
failure groups into the accumulator. -/
def Result.Add (r : Result) (res : WorkerResult) : Result :=
  { r with
    Scripts := res.Scripts.foldl addScript r.Scripts
    FailedByErrorGroup := res.FailedByErrorGroup.foldl addGroup r.FailedByErrorGroup }

/-- A structured line of human-readable renderer output. Each constructor is
one `WriteString`/`Fprintf` of the source, carrying the formatted arguments
(a `%.Nf`-formatted number is carried as its rational value). -/
inductive Line
  | startBanner (databaseName url scenario : String)
  | initProgress (sec step : String) (pct : ℚ)
  | workloadProgress (pct : ℚ)
  | errorStats
  | noErrors
  | failedCount (n : ℤ) (pct : ℚ)
  | blank
  | causes
  | causeGroup (name : String) (count : ℤ)
  | causeExample (msg : String)
  | scriptSummary (succeeded failed : ℤ) (rate : ℚ)
  | maxMinMeanStddev (maxv minv mean stddev : ℚ)
  | latencyDistribution
  | percentile (label : String) (ms : ℚ)
deriving DecidableEq

/-- `writeErrorReport` from `output.go`, as the list of lines it appends to
the string builder. -/
def writeErrorReport (result : Result) : List Line :=
  [Line.errorStats] ++
  (if result.TotalFailed = 0 then
    [Line.noErrors]
  else
    [Line.failedCount result.TotalFailed
        (100 * (result.TotalFailed : ℚ) / ((result.TotalFailed + result.TotalSucceeded : ℤ) : ℚ)),
      Line.blank, Line.causes] ++
    result.FailedByErrorGroup.foldl
      (fun acc p => acc ++ [Line.causeGroup p.1 p.2.Count, Line.causeExample p.2.FirstFailure]) [])

/-- `summarizeLatency` from `output.go`: the per-script latency block of the
interactive latency report (the indent argument is presentation only). -/
def summarizeLatency (script : ScriptResult) : List Line :=
  let histo := script.Latencies
  [Line.scriptSummary script.Succeeded script.Failed script.Rate,
    Line.maxMinMeanStddev ((histo.Max : ℚ) / 1000) ((histo.Min : ℚ) / 1000)
      (histo.Mean / 1000) (histo.StdDev / 1000),
    Line.latencyDistribution,
    Line.percentile "P00.000" ((histo.Min : ℚ) / 1000),
    Line.percentile "P25.000" ((histo.ValueAtQuantile 25 : ℚ) / 1000),
    Line.percentile "P50.000" ((histo.ValueAtQuantile 50 : ℚ) / 1000),
    Line.percentile "P75.000" ((histo.ValueAtQuantile 75 : ℚ) / 1000),
    Line.percentile "P95.000" ((histo.ValueAtQuantile 95 : ℚ) / 1000),
    Line.percentile "P99.000" ((histo.ValueAtQuantile 99 : ℚ) / 1000),
    Line.percentile "P99.999" ((histo.ValueAtQuantile (99999 / 1000) : ℚ) / 1000)]

/-- `InteractiveOutput` from `output.go`; the two writers become lists of
structured lines, the rate-limit clock becomes a rational timestamp in
seconds supplied at each call (`time.Now()`). -/
structure InteractiveOutput where
  ErrStream : List Line
  OutStream : List Line
  LastProgressReport : ProgressReport
  LastProgressTime : ℚ
deriving DecidableEq

/-- The zero value of `InteractiveOutput` as built by `InitOutput`: empty
streams, zero-valued rate-limiter fields. -/
def freshInteractive : InteractiveOutput :=
  { ErrStream := [], OutStream := []
    LastProgressReport := { Section := "", Step := "", Completeness := 0 }
    LastProgressTime := 0 }

/-- `InteractiveOutput.ReportInitProgress` from `output.go`: suppress when the
(Section, Step) pair matches the stored report and less than 10 seconds have
passed; otherwise record the report and time and emit one progress line. -/
def InteractiveOutput.ReportInitProgress (o : InteractiveOutput) (now : ℚ)
    (report : ProgressReport) : InteractiveOutput :=
  if report.Section = o.LastProgressReport.Section ∧
      report.Step = o.LastProgressReport.Step ∧ now - o.LastProgressTime < 10 then
    o
  else
    { o with
      LastProgressReport := report, LastProgressTime := now
      ErrStream := o.ErrStream ++
        [Line.initProgress report.Section report.Step (report.Completeness * 100)] }

/-- A cell of the CSV data stream: `"%s"`-quoted string or `%.3f`-formatted
number (`fmtFloat` renders both `int64` and `float64` with three decimals;
the numeric value is carried as its rational value). -/
inductive Cell
  | quoted (s : String)
  | num3 (q : ℚ)
deriving DecidableEq

/-- A line of the CSV data stream (`OutStream`): the header string or one
data row of cells. -/
inductive CsvLine
  | headerLine (s : String)
  | row (cells : List Cell)
deriving DecidableEq

structure CsvColumn where
  name : String
  value : Result → ScriptResult → Cell

/-- `csvColumns` from `output.go`: the fixed ordered latency-report schema. -/
def csvColumns : List CsvColumn :=
  [⟨"db", fun r _ => Cell.quoted r.DatabaseName⟩,
    ⟨"script", fun _ s => Cell.quoted s.ScriptName⟩,
    ⟨"rate", fun _ s => Cell.num3 s.Rate⟩,
    ⟨"succeeded", fun _ s => Cell.num3 (s.Latencies.TotalCount : ℚ)⟩,
    ⟨"failed", fun _ s => Cell.num3 (s.Failed : ℚ)⟩,
    ⟨"mean", fun _ s => Cell.num3 (s.Latencies.Mean / 1000)⟩,
    ⟨"stdev", fun _ s => Cell.num3 s.Latencies.StdDev⟩,
    ⟨"p0", fun _ s => Cell.num3 ((s.Latencies.Min : ℚ) / 1000)⟩,
    ⟨"p25", fun _ s => Cell.num3 ((s.Latencies.ValueAtQuantile 25 : ℚ) / 1000)⟩,
    ⟨"p50", fun _ s => Cell.num3 ((s.Latencies.ValueAtQuantile 50 : ℚ) / 1000)⟩,
    ⟨"p75", fun _ s => Cell.num3 ((s.Latencies.ValueAtQuantile 75 : ℚ) / 1000)⟩,
    ⟨"p99", fun _ s => Cell.num3 ((s.Latencies.ValueAtQuantile 99 : ℚ) / 1000)⟩,
    ⟨"p99999", fun _ s => Cell.num3 ((s.Latencies.ValueAtQuantile (99999 / 1000) : ℚ) / 1000)⟩,
    ⟨"p100", fun _ s => Cell.num3 ((s.Latencies.Max : ℚ) / 1000)⟩]

/-- One data row of `CsvOutput.writeLatencyRow`: every column's value
function applied to the result and one script. -/
def latencyRow (r : Result) (s : ScriptResult) : List Cell :=
  csvColumns.map (fun c => c.value r s)

/-- `CsvOutput` from `output.go`; same stream/clock modelling as
`InteractiveOutput`, with a structured CSV data stream. -/
structure CsvOutput where
  ErrStream : List Line
  OutStream : List CsvLine
  LastProgressReport : ProgressReport
  LastProgressTime : ℚ
deriving DecidableEq

/-- The zero value of `CsvOutput` as built by `InitOutput`. -/
def freshCsv : CsvOutput :=
  { ErrStream := [], OutStream := []
    LastProgressReport := { Section := "", Step := "", Completeness := 0 }
    LastProgressTime := 0 }

/-- `CsvOutput.BenchmarkStart` from `output.go`: a banner on the status
stream, then the comma-joined column-name header on the data stream. -/
def CsvOutput.BenchmarkStart (o : CsvOutput) (databaseName url scenario : String) :
    CsvOutput :=
  let databaseName := if databaseName = "" then "<default>" else databaseName
  { o with
    ErrStream := o.ErrStream ++ [Line.startBanner databaseName url scenario]
    OutStream := o.OutStream ++
      [CsvLine.headerLine (String.intercalate "," (csvColumns.map (fun c => c.name)))] }

/-- `CsvOutput.writeLatencyRow` from `output.go`: one latency-schema row per
script on the data stream (the error report, when failures exist, goes to
the status stream and is omitted here). -/
def CsvOutput.writeLatencyRow (o : CsvOutput) (result : Result) : CsvOutput :=
  { o with
    OutStream := o.OutStream ++ result.Scripts.map (fun s => CsvLine.row (latencyRow result s)) }

/-- The renderer graph a call to `InitOutput` constructs: one of the two
concrete renderers, optionally wrapped with a prometheus output in a
`CombinedOutput`. -/
inductive OutputModel
  | interactive
  | csv
  | prometheus
  | combined (delegates : List OutputModel)

/-- The prometheus wrapping step at the end of `InitOutput`: when an address
is configured, combine the chosen output with a fresh prometheus output. -/
def attachPrometheus (prometheusAddress : String) (output : OutputModel) : OutputModel :=
  if prometheusAddress ≠ "" then OutputModel.combined [output, OutputModel.prometheus]
  else output

/-- `InitOutput` from `output.go`. The `os.Stdout.Stat()` character-device
probe of the `auto` branch is supplied as the boolean `stdoutIsTTY`
(`fi.Mode()&os.ModeCharDevice == 0` means stdout is not a terminal). -/
def InitOutput (stdoutIsTTY : Bool) (name prometheusAddress : String) :
    Except String OutputModel :=
  let name := if name = "auto" then (if !stdoutIsTTY then "csv" else "interactive") else name
  if name = "interactive" then
    Except.ok (attachPrometheus prometheusAddress OutputModel.interactive)
  else if name = "csv" then
    Except.ok (attachPrometheus prometheusAddress OutputModel.csv)
  else
    Except.error ("unknown output format: " ++ name ++
      ", supported formats are \x27auto\x27, \x27interactive\x27 and \x27csv\x27")

/-- A Go `interface{}` value as passed to `Errorf`'s variadic parameter. -/
inductive GoValue
  | str (s : String)
  | int (n : ℤ)
  | list (vs : List GoValue)

/-- One delegate lifecycle call with its arguments, as received by a
delegate sink. -/
inductive Event
  | benchmarkStart (databaseName url scenario : String)
  | initProgressEvent (report : ProgressReport)
  | workloadProgressEvent (completeness : ℚ) (checkpoint : Result)
  | throughput (result : Result)
  | latency (result : Result)
  | errorf (format : String) (a : List GoValue)

/-- An abstract delegate `Output`: a state type with one transition per
lifecycle operation (the dynamic dispatch behind the `Output` interface). -/
structure Sink (σ : Type) where
  benchmarkStart : σ → String → String → String → σ
  reportInitProgress : σ → ProgressReport → σ
  reportWorkloadProgress : σ → ℚ → Result → σ
  reportThroughput : σ → Result → σ
  reportLatency : σ → Result → σ
  errorf : σ → String → List GoValue → σ

/-- `CombinedOutput` from `output.go`: an ordered list of delegate states. -/
structure CombinedOutput (σ : Type) where
  delegates : List σ

def CombinedOutput.BenchmarkStart (k : Sink σ) (c : CombinedOutput σ)
    (databaseName url scenario : String) : CombinedOutput σ :=
  ⟨c.delegates.map (fun d => k.benchmarkStart d databaseName url scenario)⟩

def CombinedOutput.ReportInitProgress (k : Sink σ) (c : CombinedOutput σ)
    (report : ProgressReport) : CombinedOutput σ :=
  ⟨c.delegates.map (fun d => k.reportInitProgress d report)⟩

def CombinedOutput.ReportWorkloadProgress (k : Sink σ) (c : CombinedOutput σ)
    (completeness : ℚ) (checkpoint : Result) : CombinedOutput σ :=
  ⟨c.delegates.map (fun d => k.reportWorkloadProgress d completeness checkpoint)⟩

def CombinedOutput.ReportThroughput (k : Sink σ) (c : CombinedOutput σ)
    (result : Result) : CombinedOutput σ :=
  ⟨c.delegates.map (fun d => k.reportThroughput d result)⟩

def CombinedOutput.ReportLatency (k : Sink σ) (c : CombinedOutput σ)
    (result : Result) : CombinedOutput σ :=
  ⟨c.delegates.map (fun d => k.reportLatency d result)⟩

/-- `CombinedOutput.Errorf` from `output.go`: the source calls
`d.Errorf(format, a)` — passing the slice `a` itself, not `a...` — so Go
wraps the whole argument slice into a single variadic element. -/
def CombinedOutput.Errorf (k : Sink σ) (c : CombinedOutput σ)
    (format : String) (a : List GoValue) : CombinedOutput σ :=
  ⟨c.delegates.map (fun d => k.errorf d format [GoValue.list a])⟩

/-- A delegate that records every call it receives, in order. -/
def recordingSink : Sink (List Event) :=
  { benchmarkStart := fun tr databaseName url scenario =>
      tr ++ [Event.benchmarkStart databaseName url scenario]
    reportInitProgress := fun tr report => tr ++ [Event.initProgressEvent report]
    reportWorkloadProgress := fun tr completeness checkpoint =>
      tr ++ [Event.workloadProgressEvent completeness checkpoint]
    reportThroughput := fun tr result => tr ++ [Event.throughput result]
    reportLatency := fun tr result => tr ++ [Event.latency result]
    errorf := fun tr format a => tr ++ [Event.errorf format a] }

/-- Total `Count` that one contribution reports for the failure group `g`
(the group map of a worker has unique keys; the filter makes the sum
well defined on the association-list model). -/
def groupContribution (w : WorkerResult) (g : String) : ℤ :=
  ((w.FailedByErrorGroup.filter (fun p => p.1 = g)).map (fun p => p.2.Count)).sum

/-- Sum of the `Succeeded` counters a contribution carries. -/
def workerSucceeded (w : WorkerResult) : ℤ := (w.Scripts.map (·.Succeeded)).sum

/-- Sum of the `Failed` counters a contribution carries. -/
def workerFailed (w : WorkerResult) : ℤ := (w.Scripts.map (·.Failed)).sum

/-- Sum of the `Rate` values a contribution carries. -/
def workerRate (w : WorkerResult) : ℚ := (w.Scripts.map (·.Rate)).sum

theorem lookupScript_addScript (l : List ScriptResult) (ws : ScriptResult) (n : String) :
    lookupScript (addScript l ws) n =
      if n = ws.ScriptName then
        some ((lookupScript l ws.ScriptName).elim (importedScript ws) (fun s => combineScript s ws))
      else lookupScript l n := by
  induction l with
  | nil =>
    by_cases h : n = ws.ScriptName
    · subst h; simp [addScript, lookupScript, importedScript]
    · simp [addScript, lookupScript, importedScript, h, Ne.symm h]
  | cons s rest ih =>
    by_cases hs : s.ScriptName = ws.ScriptName
    · by_cases hn : n = ws.ScriptName
      · subst hn
        simp [addScript, lookupScript, hs, combineScript]
      · simp [addScript, lookupScript, hs, hn, Ne.symm hn, combineScript]
    · by_cases hn : n = ws.ScriptName
      · subst hn
        simp [addScript, lookupScript, hs, ih]
      · by_cases hsn : s.ScriptName = n
        · simp [addScript, lookupScript, hs, hn, hsn]
        · simp [addScript, lookupScript, hs, hn, hsn, ih]

/-- C1: `Result.Add` processes a per-script entry by inserting a new
`ScriptResult` (deep-copied histogram plus the contribution's Rate,
Succeeded and Failed) when the script name is new, and otherwise by adding
Rate/Succeeded/Failed numerically and merging the contribution's histogram
into the existing entry. -/
theorem c1_add_per_script (r : Result) (w : WorkerResult) (ws : ScriptResult)
    (h : w.Scripts = [ws]) :
    (lookupScript r.Scripts ws.ScriptName = none →
      lookupScript (r.Add w).Scripts ws.ScriptName = some (importedScript ws)) ∧
    (∀ s, lookupScript r.Scripts ws.ScriptName = some s →
      lookupScript (r.Add w).Scripts ws.ScriptName = some (combineScript s ws)) ∧
    (∀ n, n ≠ ws.ScriptName →
      lookupScript (r.Add w).Scripts n = lookupScript r.Scripts n) := by
  refine ⟨?_, ?_, ?_⟩
  · intro hnone
    simp [Result.Add, h, lookupScript_addScript, hnone]
  · intro s hsome
    simp [Result.Add, h, lookupScript_addScript, hsome]
  · intro n hn
    simp [Result.Add, h, lookupScript_addScript, hn]

/-- C1 witness: Add({tx: Rate 10, Succeeded 100, Failed 0, H1}) then
Add({tx: Rate 5, Succeeded 50, Failed 1, H2}) yields
Scripts[tx] = {Rate 15, Succeeded 150, Failed 1, merge(H1, H2)}. -/
theorem c1_add_per_script_witness :
    lookupScript (((NewResult "db" "sc").Add
        { Scripts := [{ ScriptName := "tx", Rate := 10, Failed := 0, Succeeded := 100
                        Latencies := ⟨{100, 200}⟩ }], FailedByErrorGroup := [] }).Add
      { Scripts := [{ ScriptName := "tx", Rate := 5, Failed := 1, Succeeded := 50
                      Latencies := ⟨{300}⟩ }], FailedByErrorGroup := [] }).Scripts "tx" =
      some { ScriptName := "tx", Rate := 15, Failed := 1, Succeeded := 150
             Latencies := ⟨{100, 200, 300}⟩ } := by
  have h := (c1_add_per_script ((NewResult "db" "sc").Add
      { Scripts := [{ ScriptName := "tx", Rate := 10, Failed := 0, Succeeded := 100
                      Latencies := ⟨{100, 200}⟩ }], FailedByErrorGroup := [] })
      { Scripts := [{ ScriptName := "tx", Rate := 5, Failed := 1, Succeeded := 50
                      Latencies := ⟨{300}⟩ }], FailedByErrorGroup := [] }
      { ScriptName := "tx", Rate := 5, Failed := 1, Succeeded := 50
        Latencies := ⟨{300}⟩ } rfl).2.1
      { ScriptName := "tx", Rate := 10, Failed := 0, Succeeded := 100
        Latencies := ⟨{100, 200}⟩ } (by decide)
  refine h.trans ?_
  norm_num [combineScript, Histogram.Merge]

theorem lookupGroup_addGroup (l : List (String × FailureGroup)) (e : String × FailureGroup)
    (g : String) :
    lookupGroup (addGroup l e) g =
      if g = e.1 then
        some ((lookupGroup l e.1).elim e.2
          (fun eg => { Count := eg.Count + e.2.Count, FirstFailure := eg.FirstFailure }))
      else lookupGroup l g := by
  obtain ⟨name, grp⟩ := e
  induction l with
  | nil =>
    by_cases h : g = name
    · subst h; simp [addGroup, lookupGroup]
    · simp [addGroup, lookupGroup, h, Ne.symm h]
  | cons p rest ih =>
    obtain ⟨n, eg⟩ := p
    by_cases hn : n = name
    · subst hn
      by_cases hg : g = n
      · subst hg; simp [addGroup, lookupGroup]
      · simp [addGroup, lookupGroup, hg, Ne.symm hg]
    · by_cases hg : g = name
      · subst hg
        simp [addGroup, lookupGroup, hn, ih]
      · by_cases hng : n = g
        · simp [addGroup, lookupGroup, hn, hg, hng]
        · simp [addGroup, lookupGroup, hn, hg, hng, ih]

theorem lookupGroup_foldl_addGroup (entries : List (String × FailureGroup))
    (l : List (String × FailureGroup)) (g : String) (eg : FailureGroup)
    (h : lookupGroup l g = some eg) :
    lookupGroup (entries.foldl addGroup l) g =
      some { Count := eg.Count + ((entries.filter (fun p => p.1 = g)).map (fun p => p.2.Count)).sum
             FirstFailure := eg.FirstFailure } := by
  induction entries generalizing l eg with
  | nil => simpa using h
  | cons e rest ih =>
    by_cases he : e.1 = g
    · have hstep : lookupGroup (addGroup l e) g =
          some { Count := eg.Count + e.2.Count, FirstFailure := eg.FirstFailure } := by
        rw [lookupGroup_addGroup, if_pos he.symm, he, h]
        rfl
      have := ih (addGroup l e) _ hstep
      rw [List.foldl_cons, this]
      simp [he, add_assoc]
    · have hstep : lookupGroup (addGroup l e) g = some eg := by
        rw [lookupGroup_addGroup, if_neg (fun hh => he hh.symm)]
        exact h
      have := ih (addGroup l e) _ hstep
      rw [List.foldl_cons, this]
      simp [he]

theorem lookupGroup_Add (r : Result) (w : WorkerResult) (g : String) (eg : FailureGroup)
    (h : lookupGroup r.FailedByErrorGroup g = some eg) :
    lookupGroup (r.Add w).FailedByErrorGroup g =
      some { Count := eg.Count + groupContribution w g, FirstFailure := eg.FirstFailure } :=
  lookupGroup_foldl_addGroup w.FailedByErrorGroup r.FailedByErrorGroup g eg h

/-- C2: once an error group is present in a `Result`, its `FirstFailure` is
unchanged by any sequence of later `Add` calls while its `Count` accumulates
the contributed counts; a group absent from the `Result` is inserted as
given. -/
theorem c2_first_failure_stable (r : Result) (g : String) (grp : FailureGroup)
    (h : lookupGroup r.FailedByErrorGroup g = some grp) (ws : List WorkerResult) :
    lookupGroup ((ws.foldl Result.Add r).FailedByErrorGroup) g =
      some { Count := grp.Count + (ws.map (fun w => groupContribution w g)).sum
             FirstFailure := grp.FirstFailure } ∧
    ∀ (r' : Result) (w : WorkerResult) (grp' : FailureGroup),
      lookupGroup r'.FailedByErrorGroup g = none →
      w.FailedByErrorGroup = [(g, grp')] →
      lookupGroup (r'.Add w).FailedByErrorGroup g = some grp' := by
  constructor
  · induction ws generalizing r grp with
    | nil => simpa using h
    | cons w rest ih =>
      have hstep := lookupGroup_Add r w g grp h
      have := ih (r.Add w) _ hstep
      rw [List.foldl_cons, this]
      simp [add_assoc]
  · intro r' w grp' hnone hw
    show lookupGroup (w.FailedByErrorGroup.foldl addGroup r'.FailedByErrorGroup) g = some grp'
    rw [hw]
    simp [lookupGroup_addGroup, hnone]

/-- C2 witness: a group "timeout" present with Count 1 and FirstFailure
"first" keeps FirstFailure "first" after two more contributions, with
Count 1+2+3. -/
theorem c2_first_failure_stable_witness :
    lookupGroup (([({ Scripts := [], FailedByErrorGroup := [("timeout", { Count := 2, FirstFailure := "second" })] } : WorkerResult),
        { Scripts := [], FailedByErrorGroup := [("timeout", { Count := 3, FirstFailure := "third" })] }].foldl Result.Add
      { DatabaseName := "db", Scenario := "sc"
        FailedByErrorGroup := [("timeout", { Count := 1, FirstFailure := "first" })]
        Scripts := [] }).FailedByErrorGroup) "timeout" =
      some { Count := 6, FirstFailure := "first" } := by
  have h := (c2_first_failure_stable
      { DatabaseName := "db", Scenario := "sc"
        FailedByErrorGroup := [("timeout", { Count := 1, FirstFailure := "first" })]
        Scripts := [] } "timeout" { Count := 1, FirstFailure := "first" } (by decide)
      [{ Scripts := [], FailedByErrorGroup := [("timeout", { Count := 2, FirstFailure := "second" })] },
        { Scripts := [], FailedByErrorGroup := [("timeout", { Count := 3, FirstFailure := "third" })] }]).1
  refine h.trans ?_
  norm_num [groupContribution]

theorem map_sum_addScript {M : Type} [AddCommMonoid M] (f : ScriptResult → M)
    (hc : ∀ s ws, f (combineScript s ws) = f s + f ws)
    (hi : ∀ ws, f (importedScript ws) = f ws) :
    ∀ (l : List ScriptResult) (ws : ScriptResult),
      ((addScript l ws).map f).sum = (l.map f).sum + f ws := by
  intro l ws
  induction l with
  | nil => simp [addScript, hi]
  | cons s rest ih =>
    by_cases hs : s.ScriptName = ws.ScriptName
    · simp [addScript, hs, hc, add_right_comm, add_assoc]
    · simp [addScript, hs, ih, add_assoc]

theorem map_sum_foldl_addScript {M : Type} [AddCommMonoid M] (f : ScriptResult → M)
    (hc : ∀ s ws, f (combineScript s ws) = f s + f ws)
    (hi : ∀ ws, f (importedScript ws) = f ws) :
    ∀ (entries l : List ScriptResult),
      ((entries.foldl addScript l).map f).sum = (l.map f).sum + (entries.map f).sum := by
  intro entries
  induction entries with
  | nil => simp
  | cons e rest ih =>
    intro l
    rw [List.foldl_cons, ih, map_sum_addScript f hc hi]
    simp only [List.map_cons, List.sum_cons]
    abel

theorem totalSucceeded_add (r : Result) (w : WorkerResult) :
    (r.Add w).TotalSucceeded = r.TotalSucceeded + workerSucceeded w :=
  map_sum_foldl_addScript (·.Succeeded) (fun _ _ => rfl) (fun _ => rfl) w.Scripts r.Scripts

theorem totalFailed_add (r : Result) (w : WorkerResult) :
    (r.Add w).TotalFailed = r.TotalFailed + workerFailed w :=
  map_sum_foldl_addScript (·.Failed) (fun _ _ => rfl) (fun _ => rfl) w.Scripts r.Scripts

theorem totalRate_add (r : Result) (w : WorkerResult) :
    (r.Add w).TotalRate = r.TotalRate + workerRate w :=
  map_sum_foldl_addScript (·.Rate) (fun _ _ => rfl) (fun _ => rfl) w.Scripts r.Scripts

theorem totals_foldl_add (ws : List WorkerResult) (r : Result) :
    (ws.foldl Result.Add r).TotalSucceeded = r.TotalSucceeded + (ws.map workerSucceeded).sum ∧
    (ws.foldl Result.Add r).TotalFailed = r.TotalFailed + (ws.map workerFailed).sum ∧
    (ws.foldl Result.Add r).TotalRate = r.TotalRate + (ws.map workerRate).sum := by
  induction ws generalizing r with
  | nil => simp
  | cons w rest ih =>
    obtain ⟨h1, h2, h3⟩ := ih (r.Add w)
    refine ⟨?_, ?_, ?_⟩ <;>
      simp [List.foldl_cons, h1, h2, h3, totalSucceeded_add, totalFailed_add, totalRate_add,
        add_assoc]

/-- C8: folding any list of contributions with pairwise-disjoint script
names into a fresh `Result` gives totals equal to the sums of the
per-contribution values, and any permutation of the list gives the same
totals. -/
theorem c8_totals_order_independent (databaseName scenario : String)
    (ws : List WorkerResult)
    (h : ws.Pairwise (fun a b => ∀ n, n ∈ a.Scripts.map (·.ScriptName) →
      n ∉ b.Scripts.map (·.ScriptName))) :
    (ws.foldl Result.Add (NewResult databaseName scenario)).TotalSucceeded =
      (ws.map workerSucceeded).sum ∧
    (ws.foldl Result.Add (NewResult databaseName scenario)).TotalFailed =
      (ws.map workerFailed).sum ∧
    (ws.foldl Result.Add (NewResult databaseName scenario)).TotalRate =
      (ws.map workerRate).sum ∧
    ∀ ws' : List WorkerResult, ws.Perm ws' →
      (ws'.foldl Result.Add (NewResult databaseName scenario)).TotalSucceeded =
        (ws.foldl Result.Add (NewResult databaseName scenario)).TotalSucceeded ∧
      (ws'.foldl Result.Add (NewResult databaseName scenario)).TotalFailed =
        (ws.foldl Result.Add (NewResult databaseName scenario)).TotalFailed ∧
      (ws'.foldl Result.Add (NewResult databaseName scenario)).TotalRate =
        (ws.foldl Result.Add (NewResult databaseName scenario)).TotalRate := by
  obtain ⟨h1, h2, h3⟩ := totals_foldl_add ws (NewResult databaseName scenario)
  have hfresh : ∀ (p : ScriptResult → ℤ),
      ((NewResult databaseName scenario).Scripts.map p).sum = 0 := fun _ => rfl
  refine ⟨?_, ?_, ?_, ?_⟩
  · simpa [Result.TotalSucceeded, NewResult] using h1
  · simpa [Result.TotalFailed, NewResult] using h2
  · simpa [Result.TotalRate, NewResult] using h3
  · intro ws' hperm
    obtain ⟨g1, g2, g3⟩ := totals_foldl_add ws' (NewResult databaseName scenario)
    refine ⟨?_, ?_, ?_⟩
    · rw [g1, h1, (hperm.map workerSucceeded).sum_eq]
    · rw [g2, h2, (hperm.map workerFailed).sum_eq]
    · rw [g3, h3, (hperm.map workerRate).sum_eq]

/-- C8 witness: two contributions with disjoint script names "a" and "b"
give TotalSucceeded 30, TotalFailed 1 and TotalRate 5 in either role. -/
theorem c8_totals_order_independent_witness :
    ([({ Scripts := [{ ScriptName := "a", Rate := 2, Failed := 1, Succeeded := 10, Latencies := ⟨{5}⟩ }]
         FailedByErrorGroup := [] } : WorkerResult),
      { Scripts := [{ ScriptName := "b", Rate := 3, Failed := 0, Succeeded := 20, Latencies := ⟨{6}⟩ }]
        FailedByErrorGroup := [] }].foldl Result.Add
      (NewResult "db" "sc")).TotalSucceeded = 30 ∧
    ([({ Scripts := [{ ScriptName := "a", Rate := 2, Failed := 1, Succeeded := 10, Latencies := ⟨{5}⟩ }]
         FailedByErrorGroup := [] } : WorkerResult),
      { Scripts := [{ ScriptName := "b", Rate := 3, Failed := 0, Succeeded := 20, Latencies := ⟨{6}⟩ }]
        FailedByErrorGroup := [] }].foldl Result.Add
      (NewResult "db" "sc")).TotalFailed = 1 ∧
    ([({ Scripts := [{ ScriptName := "a", Rate := 2, Failed := 1, Succeeded := 10, Latencies := ⟨{5}⟩ }]
         FailedByErrorGroup := [] } : WorkerResult),
      { Scripts := [{ ScriptName := "b", Rate := 3, Failed := 0, Succeeded := 20, Latencies := ⟨{6}⟩ }]
        FailedByErrorGroup := [] }].foldl Result.Add
      (NewResult "db" "sc")).TotalRate = 5 := by
  obtain ⟨h1, h2, h3, _⟩ := c8_totals_order_independent "db" "sc"
    [{ Scripts := [{ ScriptName := "a", Rate := 2, Failed := 1, Succeeded := 10, Latencies := ⟨{5}⟩ }]
       FailedByErrorGroup := [] },
      { Scripts := [{ ScriptName := "b", Rate := 3, Failed := 0, Succeeded := 20, Latencies := ⟨{6}⟩ }]
        FailedByErrorGroup := [] }]
    (by simp [List.pairwise_cons])
  refine ⟨h1.trans ?_, h2.trans ?_, h3.trans ?_⟩ <;>
    norm_num [workerSucceeded, workerFailed, workerRate]

/-- C6: `ReportInitProgress` on the console renderer suppresses a call whose
(Section, Step) pair equals the stored pair of the last emitted report when
less than 10 seconds have passed since that emission, and always emits one
progress line when the pair differs, regardless of elapsed time. -/
theorem c6_init_progress_rate_limit (o : InteractiveOutput) (now : ℚ)
    (report : ProgressReport) :
    (report.Section = o.LastProgressReport.Section →
      report.Step = o.LastProgressReport.Step →
      now - o.LastProgressTime < 10 →
      o.ReportInitProgress now report = o) ∧
    (report.Section ≠ o.LastProgressReport.Section ∨
        report.Step ≠ o.LastProgressReport.Step →
      (o.ReportInitProgress now report).ErrStream =
        o.ErrStream ++
          [Line.initProgress report.Section report.Step (report.Completeness * 100)]) := by
  constructor
  · intro h1 h2 h3
    simp [InteractiveOutput.ReportInitProgress, h1, h2, h3]
  · intro hne
    rcases hne with hne | hne <;>
      simp [InteractiveOutput.ReportInitProgress, hne]

/-- C6 witness: two calls within 1 second for the identical pair
(Section "load", Step "nodes") on a fresh console renderer emit exactly one
progress line: the first call emits, the second (1 second later) changes
nothing. -/
theorem c6_init_progress_rate_limit_witness :
    (freshInteractive.ReportInitProgress 0
        { Section := "load", Step := "nodes", Completeness := 0 }).ErrStream =
      [Line.initProgress "load" "nodes" 0] ∧
    (freshInteractive.ReportInitProgress 0
        { Section := "load", Step := "nodes", Completeness := 0 }).ReportInitProgress 1
        { Section := "load", Step := "nodes", Completeness := 0 } =
      freshInteractive.ReportInitProgress 0
        { Section := "load", Step := "nodes", Completeness := 0 } := by
  constructor
  · have h := (c6_init_progress_rate_limit freshInteractive 0
        { Section := "load", Step := "nodes", Completeness := 0 }).2
      (Or.inl (by decide))
    simpa [freshInteractive] using h
  · exact (c6_init_progress_rate_limit
        (freshInteractive.ReportInitProgress 0
          { Section := "load", Step := "nodes", Completeness := 0 }) 1
        { Section := "load", Step := "nodes", Completeness := 0 }).1
      (by decide) (by decide)
      (by
        have ht : (freshInteractive.ReportInitProgress 0
            { Section := "load", Step := "nodes", Completeness := 0 }).LastProgressTime = 0 := by
          simp [freshInteractive, InteractiveOutput.ReportInitProgress]
        rw [ht]
        norm_num)

theorem foldl_append_pairs {α β : Type} (g : α → List β) :
    ∀ (l : List α) (acc : List β),
      l.foldl (fun acc p => acc ++ g p) acc = acc ++ l.flatMap g := by
  intro l
  induction l with
  | nil => simp
  | cons e rest ih => intro acc; simp [ih, List.append_assoc]

/-- C7: the error summary renders "No errors!" and no causes section exactly
when `TotalFailed = 0`; otherwise it renders the failed count, the
percentage failed/(failed+succeeded)·100, and one count line plus one
example line (the group's `FirstFailure`) per failure group. -/
theorem c7_error_report (r : Result) :
    (r.TotalFailed = 0 → writeErrorReport r = [Line.errorStats, Line.noErrors]) ∧
    (r.TotalFailed ≠ 0 →
      writeErrorReport r =
        [Line.errorStats,
          Line.failedCount r.TotalFailed
            ((r.TotalFailed : ℚ) / ((r.TotalFailed : ℚ) + (r.TotalSucceeded : ℚ)) * 100),
          Line.blank, Line.causes] ++
        r.FailedByErrorGroup.flatMap
          (fun p => [Line.causeGroup p.1 p.2.Count, Line.causeExample p.2.FirstFailure])) ∧
    (Line.noErrors ∈ writeErrorReport r ↔ r.TotalFailed = 0) ∧
    (Line.causes ∈ writeErrorReport r ↔ r.TotalFailed ≠ 0) := by
  refine ⟨?_, ?_, ?_, ?_⟩
  · intro h0; simp [writeErrorReport, h0]
  · intro h0
    simp [writeErrorReport, h0, foldl_append_pairs]
    ring
  · by_cases h0 : r.TotalFailed = 0
    · simp [writeErrorReport, h0]
    · simp only [writeErrorReport, if_neg h0, foldl_append_pairs]
      simp [h0, List.mem_flatMap]
  · by_cases h0 : r.TotalFailed = 0
    · simp [writeErrorReport, h0]
    · simp only [writeErrorReport, if_neg h0, foldl_append_pairs]
      simp [h0]

/-- C7 witness: a result with no failures renders exactly
[error-stats header, "No errors!"]; a result with 2 failures in one group
renders header, failed count with percentage 2/(2+3)·100 = 40, blank,
causes header, and the group's count line and example line. -/
theorem c7_error_report_witness :
    writeErrorReport ⟨"db", "sc", [], [⟨"tx", 1, 0, 5, ⟨{7}⟩⟩]⟩ =
      [Line.errorStats, Line.noErrors] ∧
    writeErrorReport ⟨"db", "sc", [("timeout", ⟨2, "boom"⟩)], [⟨"tx", 1, 2, 3, ⟨{7}⟩⟩]⟩ =
      [Line.errorStats, Line.failedCount 2 40, Line.blank, Line.causes,
        Line.causeGroup "timeout" 2, Line.causeExample "boom"] := by
  constructor
  · exact (c7_error_report ⟨"db", "sc", [], [⟨"tx", 1, 0, 5, ⟨{7}⟩⟩]⟩).1 (by decide)
  · have h := (c7_error_report
        ⟨"db", "sc", [("timeout", ⟨2, "boom"⟩)], [⟨"tx", 1, 2, 3, ⟨{7}⟩⟩]⟩).2.1 (by decide)
    refine h.trans ?_
    norm_num [Result.TotalFailed, Result.TotalSucceeded]

/-- C5: the "succeeded" column (index 3) of a CSV latency-schema row carries
the histogram's total recorded sample count, not the `Succeeded` counter,
and the two can differ. -/
theorem c5_succeeded_column_is_total_count :
    (∀ (r : Result) (s : ScriptResult),
      (latencyRow r s)[3]? = some (Cell.num3 (s.Latencies.TotalCount : ℚ))) ∧
    (csvColumns.map (fun c => c.name))[3]? = some "succeeded" ∧
    ∃ (r : Result) (s : ScriptResult),
      (latencyRow r s)[3]? ≠ some (Cell.num3 (s.Succeeded : ℚ)) := by
  refine ⟨fun r s => rfl, rfl, ⟨NewResult "db" "sc", ⟨"tx", 0, 0, 5, ⟨{1, 2}⟩⟩, ?_⟩⟩
  decide

/-- C9 counterexample: the CSV header does not list the claimed column name
"stddev" — the source names that column "stdev". -/
theorem c9_header_counterexample :
    csvColumns.map (fun c => c.name) ≠
      ["db", "script", "rate", "succeeded", "failed", "mean", "stddev",
        "p0", "p25", "p50", "p75", "p99", "p99999", "p100"] := by
  decide

/-- C9 (amended: the standard-deviation column is named "stdev", not
"stddev"): `CsvOutput.BenchmarkStart` appends exactly one header line to the
data stream — the comma-join of the 14 column names in schema order — and on
a fresh renderer the data stream afterwards holds that single header line
and no data row. -/
theorem c9_header_line :
    (∀ (o : CsvOutput) (databaseName url scenario : String),
      (o.BenchmarkStart databaseName url scenario).OutStream =
        o.OutStream ++
          [CsvLine.headerLine (String.intercalate "," (csvColumns.map (fun c => c.name)))]) ∧
    csvColumns.map (fun c => c.name) =
      ["db", "script", "rate", "succeeded", "failed", "mean", "stdev",
        "p0", "p25", "p50", "p75", "p99", "p99999", "p100"] ∧
    (csvColumns.map (fun c => c.name)).length = 14 ∧
    ∀ (databaseName url scenario : String),
      (freshCsv.BenchmarkStart databaseName url scenario).OutStream =
        [CsvLine.headerLine "db,script,rate,succeeded,failed,mean,stdev,p0,p25,p50,p75,p99,p99999,p100"] := by
  refine ⟨fun o databaseName url scenario => rfl, rfl, rfl, fun databaseName url scenario => rfl⟩

/-- C10: in the CSV latency row the stdev column (index 6) carries the
histogram standard deviation in its native unit, while the mean (index 5)
and every percentile column (indices 7..13) are divided by 1000; the console
renderer divides the standard deviation by 1000 as well; and the native and
divided values genuinely differ on some input. -/
theorem c10_stdev_native_unit :
    (∀ (r : Result) (s : ScriptResult),
      (latencyRow r s)[6]? = some (Cell.num3 s.Latencies.StdDev) ∧
      (latencyRow r s)[5]? = some (Cell.num3 (s.Latencies.Mean / 1000)) ∧
      (latencyRow r s)[7]? = some (Cell.num3 ((s.Latencies.Min : ℚ) / 1000)) ∧
      (latencyRow r s)[8]? = some (Cell.num3 ((s.Latencies.ValueAtQuantile 25 : ℚ) / 1000)) ∧
      (latencyRow r s)[9]? = some (Cell.num3 ((s.Latencies.ValueAtQuantile 50 : ℚ) / 1000)) ∧
      (latencyRow r s)[10]? = some (Cell.num3 ((s.Latencies.ValueAtQuantile 75 : ℚ) / 1000)) ∧
      (latencyRow r s)[11]? = some (Cell.num3 ((s.Latencies.ValueAtQuantile 99 : ℚ) / 1000)) ∧
      (latencyRow r s)[12]? =
        some (Cell.num3 ((s.Latencies.ValueAtQuantile (99999 / 1000) : ℚ) / 1000)) ∧
      (latencyRow r s)[13]? = some (Cell.num3 ((s.Latencies.Max : ℚ) / 1000))) ∧
    (∀ (s : ScriptResult),
      (summarizeLatency s)[1]? =
        some (Line.maxMinMeanStddev ((s.Latencies.Max : ℚ) / 1000) ((s.Latencies.Min : ℚ) / 1000)
          (s.Latencies.Mean / 1000) (s.Latencies.StdDev / 1000))) ∧
    ∃ s : ScriptResult, Cell.num3 s.Latencies.StdDev ≠ Cell.num3 (s.Latencies.StdDev / 1000) := by
  refine ⟨fun r s => ⟨rfl, rfl, rfl, rfl, rfl, rfl, rfl, rfl, rfl⟩, fun s => rfl,
    ⟨⟨"tx", 0, 0, 0, ⟨{0, 2}⟩⟩, ?_⟩⟩
  norm_num [Histogram.StdDev, Histogram.Mean]

/-- C4: `InitOutput` rejects every mode name outside {auto, interactive, csv}
with a configuration error naming the supported set and constructs no
output; every name in the supported set yields an output and no error. -/
theorem c4_init_output_mode (stdoutIsTTY : Bool) (name prometheusAddress : String) :
    (name ∉ (["auto", "interactive", "csv"] : List String) →
      InitOutput stdoutIsTTY name prometheusAddress =
        Except.error ("unknown output format: " ++ name ++
          ", supported formats are \x27auto\x27, \x27interactive\x27 and \x27csv\x27")) ∧
    (name ∈ (["auto", "interactive", "csv"] : List String) →
      ∃ output, InitOutput stdoutIsTTY name prometheusAddress = Except.ok output) := by
  constructor
  · intro hmem
    simp only [List.mem_cons, List.mem_singleton, not_or] at hmem
    obtain ⟨h1, h2, h3⟩ := hmem
    simp [InitOutput, h1, h2, h3]
  · intro hmem
    simp only [List.mem_cons, List.mem_singleton] at hmem
    rcases hmem with h | h | h | h
    · subst h
      cases stdoutIsTTY
      · exact ⟨attachPrometheus prometheusAddress OutputModel.csv, rfl⟩
      · exact ⟨attachPrometheus prometheusAddress OutputModel.interactive, rfl⟩
    · subst h
      exact ⟨attachPrometheus prometheusAddress OutputModel.interactive, rfl⟩
    · subst h
      exact ⟨attachPrometheus prometheusAddress OutputModel.csv, rfl⟩
    · cases h

/-- C4 witness: mode "xml" yields the configuration error naming
auto/interactive/csv and no output; mode "csv" yields an output. -/
theorem c4_init_output_mode_witness :
    InitOutput true "xml" "" =
      Except.error "unknown output format: xml, supported formats are \x27auto\x27, \x27interactive\x27 and \x27csv\x27" ∧
    ∃ output, InitOutput true "csv" "" = Except.ok output := by
  constructor
  · have h := (c4_init_output_mode true "xml" "").1 (by decide)
    exact h.trans (congrArg Except.error (by decide))
  · exact (c4_init_output_mode true "csv" "").2 (by decide)

/-- C3 (code bug): the six lifecycle operations of `CombinedOutput` forward
to every delegate in list order, but `Errorf` does not forward the same
arguments — the source passes the argument slice `a` instead of spreading it
(`a...`), so every delegate receives the whole slice wrapped as one single
variadic argument. The first five operations do forward identically. -/
theorem c3_errorf_forwarding_bug :
    (∀ (c : CombinedOutput (List Event)) (format : String) (a : List GoValue),
      (CombinedOutput.Errorf recordingSink c format a).delegates =
        c.delegates.map (fun tr => tr ++ [Event.errorf format [GoValue.list a]])) ∧
    (CombinedOutput.Errorf recordingSink ⟨[[]]⟩ "error in %s: %v"
        [GoValue.str "worker", GoValue.int 1]).delegates =
      [[Event.errorf "error in %s: %v"
          [GoValue.list [GoValue.str "worker", GoValue.int 1]]]] ∧
    [Event.errorf "error in %s: %v" [GoValue.list [GoValue.str "worker", GoValue.int 1]]] ≠
      [Event.errorf "error in %s: %v" [GoValue.str "worker", GoValue.int 1]] ∧
    (∀ (c : CombinedOutput (List Event)) (result : Result),
      (CombinedOutput.ReportThroughput recordingSink c result).delegates =
        c.delegates.map (fun tr => tr ++ [Event.throughput result])) := by
  refine ⟨fun c format a => rfl, rfl, ?_, fun c result => rfl⟩
  simp [recordingSink]
